import Mathlib

/-!
Shallow embedding of src/modul_training.py.

Conventions of the embedding:
* Python floats are modelled as exact rationals (ℚ); every arithmetic
  operation in the source is pure rational arithmetic, so the formulas
  carry over verbatim.
* Python `/` raises ZeroDivisionError on a zero divisor; it is modelled
  by `pydiv`, returning `Except Err ℚ`.
* `raise NotImplementedError`, `raise ValueError(...)` (the dispatcher's
  invalid-code error), `TypeError` from a wrong-arity constructor call,
  and `KeyError` from `str.format` are modelled as values of `Err`.
-/

namespace ModulTraining

/-- The exceptions the source can raise. -/
inductive Err where
  | divisionByZero
  | notImplementedError
  | invalidWorkoutCode
  | arityMismatch
  | keyError (key : String)
  | attributeError (attr : String)
deriving DecidableEq, Repr

/-- Python division `a / b`: raises ZeroDivisionError when `b = 0`. -/
def pydiv (a b : ℚ) : Except Err ℚ :=
  if b = 0 then .error .divisionByZero else .ok (a / b)

/-- Python `round(q, 3)`, banker's rounding to the nearest 1/1000
(`round` on floats rounds half to even). -/
def roundHalfEven (q : ℚ) : ℤ :=
  if q - ⌊q⌋ < 1 / 2 then ⌊q⌋
  else if 1 / 2 < q - ⌊q⌋ then ⌊q⌋ + 1
  else if Even ⌊q⌋ then ⌊q⌋ else ⌊q⌋ + 1

def pyround3 (q : ℚ) : ℚ := (roundHalfEven (q * 1000) : ℚ) / 1000

/- Class constants of the source (lines 27-29, 63-64, 84-87, 109-111). -/

def LEN_STEP_BASE : ℚ := 0.65
def M_IN_KM : ℚ := 1000
def H_TO_M : ℚ := 60

def CALORIES_MEAN_SPEED_MULTIPLIER : ℚ := 18
def CALORIES_MEAN_SPEED_SHIFT : ℚ := 1.79

def CALORIES_WEIGHT_MULTIPLIER : ℚ := 0.035
def CALORIES_WEIGHT_MULTIPLIER2 : ℚ := 0.029
def TRN_TO_MS : ℚ := pyround3 (1000 / 3600)
def MTR : ℚ := 100

def LEN_STEP_SWM : ℚ := 1.38
def const_cal : ℚ := 1.1
def const_cal2 : ℚ := 2

/-- The class hierarchy: the base class `Training` plus its three
subclasses, each with the fields its `__init__` stores. `base` stands
for a direct instance of the (non-abstract in Python) base class. -/
inductive Training where
  | base (action duration weight : ℚ)
  | running (action duration weight : ℚ)
  | sportsWalking (action duration weight height : ℚ)
  | swimming (action duration weight lenght_pool count_pool : ℚ)
deriving DecidableEq, Repr

namespace Training

/-- Attribute `self.action` (set by the shared `__init__`). -/
def action : Training → ℚ
  | .base a _ _ => a
  | .running a _ _ => a
  | .sportsWalking a _ _ _ => a
  | .swimming a _ _ _ _ => a

/-- Attribute `self.duration`. -/
def duration : Training → ℚ
  | .base _ d _ => d
  | .running _ d _ => d
  | .sportsWalking _ d _ _ => d
  | .swimming _ d _ _ _ => d

/-- Attribute `self.weight`. -/
def weight : Training → ℚ
  | .base _ _ w => w
  | .running _ _ w => w
  | .sportsWalking _ _ w _ => w
  | .swimming _ _ w _ _ => w

/-- Class attribute `self.LEN_STEP`, overridden by Swimming (line 109). -/
def LEN_STEP : Training → ℚ
  | .swimming _ _ _ _ _ => LEN_STEP_SWM
  | _ => LEN_STEP_BASE

/-- Python expression `self.__class__.__name__`. -/
def className : Training → String
  | .base _ _ _ => "Training"
  | .running _ _ _ => "Running"
  | .sportsWalking _ _ _ _ => "SportsWalking"
  | .swimming _ _ _ _ _ => "Swimming"

/-- Method `Training.get_distance` (lines 40-43):
`self.action * self.LEN_STEP / self.M_IN_KM`. Inherited unchanged by
all three subclasses. -/
def get_distance (t : Training) : Except Err ℚ :=
  pydiv (t.action * t.LEN_STEP) M_IN_KM

/-- Method `get_mean_speed`: the base method (lines 45-48) is
`self.get_distance() / self.duration`; `Swimming` overrides it
(lines 130-133) with
`self.lenght_pool * self.count_pool / self.M_IN_KM / self.duration`. -/
def get_mean_speed : Training → Except Err ℚ
  | .swimming _ d _ lp cp => do
      let x ← pydiv (lp * cp) M_IN_KM
      pydiv x d
  | t => do
      let dist ← get_distance t
      pydiv dist t.duration

/-- Method `get_spent_calories`: the base method raises `NotImplementedError`
(lines 50-52); each subclass overrides it with its own formula
(lines 73-79, 98-104, 124-128). -/
def get_spent_calories : Training → Except Err ℚ
  | .base _ _ _ => .error .notImplementedError
  | .running a d w => do
      let speed ← get_mean_speed (.running a d w)
      let x ← pydiv ((CALORIES_MEAN_SPEED_MULTIPLIER * speed
          + CALORIES_MEAN_SPEED_SHIFT) * w) M_IN_KM
      pure (x * d * H_TO_M)
  | .sportsWalking a d w h => do
      let speed ← get_mean_speed (.sportsWalking a d w h)
      let hm ← pydiv h MTR
      let x ← pydiv ((speed * TRN_TO_MS) ^ 2) hm
      pure ((CALORIES_WEIGHT_MULTIPLIER * w
          + x * (CALORIES_WEIGHT_MULTIPLIER2 * w)) * (d * H_TO_M))
  | .swimming a d w lp cp => do
      let speed ← get_mean_speed (.swimming a d w lp cp)
      pure ((speed + const_cal) * const_cal2 * w * d)

end Training

/-- Dispatcher `read_package` (lines 136-144): dispatch on the workout-type code;
an unknown code raises `ValueError` (modelled `invalidWorkoutCode`);
`activites[workout_type](*data)` with a data sequence whose length does
not match the constructor's arity raises `TypeError` (modelled
`arityMismatch`). -/
def read_package (workout_type : String) (data : List ℚ) :
    Except Err Training :=
  if workout_type = "SWM" then
    match data with
    | [a, d, w, lp, cp] => .ok (.swimming a d w lp cp)
    | _ => .error .arityMismatch
  else if workout_type = "RUN" then
    match data with
    | [a, d, w] => .ok (.running a d w)
    | _ => .error .arityMismatch
  else if workout_type = "WLK" then
    match data with
    | [a, d, w, h] => .ok (.sportsWalking a d w h)
    | _ => .error .arityMismatch
  else .error .invalidWorkoutCode

/-!
Model of `InfoMessage` (lines 6-22) and of the fragment of Python's
`str.format` that its `get_message` exercises. The default value of the
`message` field (lines 14-18) is a format string; it is embedded here
already parsed into its literal runs and replacement fields, each field
carrying its field name (e.g. `self.duration`) and format spec
(e.g. `.3f`).
-/

/-- One segment of a parsed Python format string: a literal run, or a
replacement field with its field name and format spec. -/
inductive FmtItem where
  | lit (s : String)
  | field (name : String) (spec : String)
deriving DecidableEq, Repr

/-- The raw text of a format-string segment (braces restored). -/
def FmtItem.raw : FmtItem → String
  | .lit s => s
  | .field name spec =>
      "\x7b" ++ name ++ (if spec = "" then "" else ":" ++ spec) ++ "\x7d"

/-- The raw text of a parsed format string. -/
def rawTemplate (items : List FmtItem) : String :=
  String.join (items.map FmtItem.raw)

/-- The default value of `InfoMessage.message` (lines 14-18), parsed. -/
def MESSAGE_TEMPLATE : List FmtItem :=
  [.lit "Тип тренировки ", .field "self.training_type" "",
   .lit "; Длительность: ", .field "self.duration" ".3f",
   .lit " ч.; Дистанция: ", .field "self.distance" ".3f",
   .lit " км; Ср. скорость: ", .field "self.speed" ".3f",
   .lit " км/ч; Потрачено ккал: ", .field "self.calories" ".3f",
   .lit "."]

/-- Dataclass `InfoMessage` (lines 6-18). -/
structure InfoMessage where
  training_type : String
  duration : ℚ
  distance : ℚ
  speed : ℚ
  calories : ℚ
  message : List FmtItem := MESSAGE_TEMPLATE
deriving DecidableEq, Repr

/-- A Python value that can appear in `asdict(self)` for an
`InfoMessage`: a string, a float, or the format string itself. -/
inductive PyVal where
  | str (s : String)
  | num (q : ℚ)
  | template (t : List FmtItem)
deriving DecidableEq, Repr

/-- Python `'%.3f'`-style fixed formatting with three decimals, as
`'{:.3f}'.format` renders a float (round half to even). -/
def fmtFixed3 (q : ℚ) : String :=
  let n := roundHalfEven (q * 1000)
  let sign := if n < 0 then "-" else ""
  let m := n.natAbs
  let frac := m % 1000
  let fracStr :=
    if frac < 10 then "00" ++ toString frac
    else if frac < 100 then "0" ++ toString frac
    else toString frac
  sign ++ toString (m / 1000) ++ "." ++ fracStr

/-- Rendering of a replacement field's value with its format spec. The
template's only specs are the empty spec (on the string-valued
`training_type`) and `.3f` (on the four float fields); `str()` of a
format string is its raw text. -/
def render : PyVal → String → String
  | .str s, _ => s
  | .num q, _ => fmtFixed3 q
  | .template t, _ => rawTemplate t

/-- The mapping `**asdict(self)` passes to `format`: the dataclass's
own field names and nothing else. -/
def asdictPy (m : InfoMessage) : String → Option PyVal := fun k =>
  if k = "training_type" then some (.str m.training_type)
  else if k = "duration" then some (.num m.duration)
  else if k = "distance" then some (.num m.distance)
  else if k = "speed" then some (.num m.speed)
  else if k = "calories" then some (.num m.calories)
  else if k = "message" then some (.template m.message)
  else none

/-- Splitting a character list at the dots (the shape
`arg_name ("." attribute)*` of a Python replacement field's name). -/
def splitDots : List Char → List (List Char)
  | [] => [[]]
  | ch :: rest =>
      if ch = '.' then [] :: splitDots rest
      else
        match splitDots rest with
        | [] => [[ch]]
        | g :: gs => (ch :: g) :: gs

/-- The dot-separated components of a replacement field's name. -/
def fieldParts (name : String) : List String :=
  (splitDots name.toList).map fun l => ⟨l⟩

/-- The keyword key `str.format` looks up for a field name: the part
before the first dot (`self.duration` looks up `self`). -/
def fieldKey (name : String) : String :=
  (fieldParts name).headD name

/-- The attribute path after the key (`self.duration` has path
`[duration]`). -/
def fieldAttrs (name : String) : List String :=
  (fieldParts name).tail

/-- Python `getattr` on the values of `PyVal`: strings, floats and the
format string have none of the attributes the template's field names
mention, so the access raises `AttributeError`. (This branch is only
reachable when the field's key was found in the mapping.) -/
def getattrPy (_ : PyVal) (attr : String) : Except Err PyVal :=
  .error (.attributeError attr)

def applyAttrs : PyVal → List String → Except Err PyVal
  | v, [] => .ok v
  | v, a :: rest => do
      let v' ← getattrPy v a
      applyAttrs v' rest

/-- Python `str.format(**kwargs)` over a parsed format string: each
replacement field looks up its key in the mapping — `KeyError` when
absent — then follows its attribute path and renders with its spec. -/
def pyFormat : List FmtItem → (String → Option PyVal) → Except Err String
  | [], _ => .ok ""
  | .lit s :: rest, env => do
      let r ← pyFormat rest env
      pure (s ++ r)
  | .field name spec :: rest, env =>
      match env (fieldKey name) with
      | none => .error (.keyError (fieldKey name))
      | some v => do
          let v' ← applyAttrs v (fieldAttrs name)
          let r ← pyFormat rest env
          pure (render v' spec ++ r)

/-- Method `InfoMessage.get_message` (lines 20-22):
`self.message.format(**asdict(self))`. -/
def InfoMessage.get_message (m : InfoMessage) : Except Err String :=
  pyFormat m.message (asdictPy m)

/-- Method `Training.show_training_info` (lines 54-58): builds the
`InfoMessage` from the class name, the stored duration and the three
computed metrics (Python evaluates the constructor arguments left to
right, so an exception from an earlier metric pre-empts a later one). -/
def Training.show_training_info (t : Training) : Except Err InfoMessage := do
  let dist ← t.get_distance
  let speed ← t.get_mean_speed
  let cal ← t.get_spent_calories
  pure ⟨t.className, t.duration, dist, speed, cal, MESSAGE_TEMPLATE⟩

/-! Closed forms of the methods, shared by the claim proofs below. -/

@[simp]
theorem ok_bind {ε α β : Type} (a : α) (f : α → Except ε β) :
    (Except.ok a : Except ε α) >>= f = f a := rfl

@[simp]
theorem error_bind {ε α β : Type} (e : ε) (f : α → Except ε β) :
    (Except.error e : Except ε α) >>= f = .error e := rfl

@[simp]
theorem pure_eq_ok {ε α : Type} (a : α) :
    (pure a : Except ε α) = .ok a := rfl

theorem pydiv_ok {b : ℚ} (a : ℚ) (hb : b ≠ 0) : pydiv a b = .ok (a / b) := by
  simp [pydiv, hb]

@[simp]
theorem pydiv_zero (a : ℚ) : pydiv a 0 = .error .divisionByZero := by
  simp [pydiv]

theorem TRN_TO_MS_eq : TRN_TO_MS = 0.278 := by
  have h1 : ((1000 : ℚ) / 3600) * 1000 = 2500 / 9 := by norm_num
  have h2 : ⌊(2500 / 9 : ℚ)⌋ = 277 := by
    rw [Int.floor_eq_iff]
    norm_num
  unfold TRN_TO_MS pyround3 roundHalfEven
  rw [h1, h2]
  norm_num

theorem get_distance_eq (t : Training) :
    t.get_distance = .ok (t.action * t.LEN_STEP / 1000) := by
  norm_num [Training.get_distance, pydiv, M_IN_KM]

theorem get_mean_speed_base (a d w : ℚ) (hd : d ≠ 0) :
    Training.get_mean_speed (.base a d w) = .ok (a * LEN_STEP_BASE / 1000 / d) := by
  simp only [Training.get_mean_speed, get_distance_eq, ok_bind]
  norm_num [pydiv, hd, Training.action, Training.duration, Training.LEN_STEP]

theorem get_mean_speed_running (a d w : ℚ) (hd : d ≠ 0) :
    Training.get_mean_speed (.running a d w) = .ok (a * LEN_STEP_BASE / 1000 / d) := by
  simp only [Training.get_mean_speed, get_distance_eq, ok_bind]
  norm_num [pydiv, hd, Training.action, Training.duration, Training.LEN_STEP]

theorem get_mean_speed_sportsWalking (a d w h : ℚ) (hd : d ≠ 0) :
    Training.get_mean_speed (.sportsWalking a d w h)
      = .ok (a * LEN_STEP_BASE / 1000 / d) := by
  simp only [Training.get_mean_speed, get_distance_eq, ok_bind]
  norm_num [pydiv, hd, Training.action, Training.duration, Training.LEN_STEP]

theorem get_mean_speed_swimming (a d w lp cp : ℚ) (hd : d ≠ 0) :
    Training.get_mean_speed (.swimming a d w lp cp)
      = .ok (lp * cp / 1000 / d) := by
  simp only [Training.get_mean_speed]
  norm_num [pydiv, hd, M_IN_KM]

theorem get_mean_speed_base_zero (a w : ℚ) :
    Training.get_mean_speed (.base a 0 w) = .error .divisionByZero := by
  simp only [Training.get_mean_speed, get_distance_eq, ok_bind]
  norm_num [pydiv, Training.duration]

theorem get_mean_speed_running_zero (a w : ℚ) :
    Training.get_mean_speed (.running a 0 w) = .error .divisionByZero := by
  simp only [Training.get_mean_speed, get_distance_eq, ok_bind]
  norm_num [pydiv, Training.duration]

theorem get_mean_speed_sportsWalking_zero (a w h : ℚ) :
    Training.get_mean_speed (.sportsWalking a 0 w h) = .error .divisionByZero := by
  simp only [Training.get_mean_speed, get_distance_eq, ok_bind]
  norm_num [pydiv, Training.duration]

theorem get_mean_speed_swimming_zero (a w lp cp : ℚ) :
    Training.get_mean_speed (.swimming a 0 w lp cp) = .error .divisionByZero := by
  simp only [Training.get_mean_speed]
  norm_num [pydiv, M_IN_KM]

theorem get_spent_calories_running (a d w : ℚ) (hd : d ≠ 0) :
    Training.get_spent_calories (.running a d w)
      = .ok ((CALORIES_MEAN_SPEED_MULTIPLIER * (a * LEN_STEP_BASE / 1000 / d)
          + CALORIES_MEAN_SPEED_SHIFT) * w / 1000 * d * H_TO_M) := by
  simp only [Training.get_spent_calories, get_mean_speed_running a d w hd, ok_bind]
  norm_num [pydiv, M_IN_KM]

theorem get_spent_calories_sportsWalking (a d w h : ℚ) (hd : d ≠ 0) (hh : h ≠ 0) :
    Training.get_spent_calories (.sportsWalking a d w h)
      = .ok ((CALORIES_WEIGHT_MULTIPLIER * w
          + ((a * LEN_STEP_BASE / 1000 / d) * TRN_TO_MS) ^ 2 / (h / 100)
            * (CALORIES_WEIGHT_MULTIPLIER2 * w)) * (d * H_TO_M)) := by
  have h100 : (100 : ℚ) ≠ 0 := by norm_num
  have hdiv : h / (100 : ℚ) ≠ 0 := div_ne_zero hh h100
  simp only [Training.get_spent_calories, get_mean_speed_sportsWalking a d w h hd,
    ok_bind, MTR, pydiv_ok _ h100, pydiv_ok _ hdiv, pure_eq_ok]

theorem get_spent_calories_sportsWalking_height_zero (a d w : ℚ) (hd : d ≠ 0) :
    Training.get_spent_calories (.sportsWalking a d w 0)
      = .error .divisionByZero := by
  simp only [Training.get_spent_calories, get_mean_speed_sportsWalking a d w 0 hd,
    ok_bind]
  norm_num [pydiv, MTR]

theorem get_spent_calories_swimming (a d w lp cp : ℚ) (hd : d ≠ 0) :
    Training.get_spent_calories (.swimming a d w lp cp)
      = .ok ((lp * cp / 1000 / d + const_cal) * const_cal2 * w * d) := by
  simp only [Training.get_spent_calories, get_mean_speed_swimming a d w lp cp hd,
    ok_bind, pure_eq_ok]

theorem show_training_info_running_ok (a d w : ℚ) (hd : d ≠ 0) :
    Training.show_training_info (.running a d w)
      = .ok ⟨"Running", d, a * LEN_STEP_BASE / 1000,
          a * LEN_STEP_BASE / 1000 / d,
          (CALORIES_MEAN_SPEED_MULTIPLIER * (a * LEN_STEP_BASE / 1000 / d)
            + CALORIES_MEAN_SPEED_SHIFT) * w / 1000 * d * H_TO_M,
          MESSAGE_TEMPLATE⟩ := by
  simp only [Training.show_training_info, get_distance_eq, ok_bind,
    get_mean_speed_running a d w hd, get_spent_calories_running a d w hd, pure_eq_ok,
    Training.className, Training.duration, Training.action, Training.LEN_STEP]

theorem show_training_info_sportsWalking_ok (a d w h : ℚ) (hd : d ≠ 0) (hh : h ≠ 0) :
    Training.show_training_info (.sportsWalking a d w h)
      = .ok ⟨"SportsWalking", d, a * LEN_STEP_BASE / 1000,
          a * LEN_STEP_BASE / 1000 / d,
          (CALORIES_WEIGHT_MULTIPLIER * w
            + ((a * LEN_STEP_BASE / 1000 / d) * TRN_TO_MS) ^ 2 / (h / 100)
              * (CALORIES_WEIGHT_MULTIPLIER2 * w)) * (d * H_TO_M),
          MESSAGE_TEMPLATE⟩ := by
  simp only [Training.show_training_info, get_distance_eq, ok_bind,
    get_mean_speed_sportsWalking a d w h hd,
    get_spent_calories_sportsWalking a d w h hd hh, pure_eq_ok,
    Training.className, Training.duration, Training.action, Training.LEN_STEP]

theorem show_training_info_swimming_ok (a d w lp cp : ℚ) (hd : d ≠ 0) :
    Training.show_training_info (.swimming a d w lp cp)
      = .ok ⟨"Swimming", d, a * LEN_STEP_SWM / 1000,
          lp * cp / 1000 / d,
          (lp * cp / 1000 / d + const_cal) * const_cal2 * w * d,
          MESSAGE_TEMPLATE⟩ := by
  simp only [Training.show_training_info, get_distance_eq, ok_bind,
    get_mean_speed_swimming a d w lp cp hd,
    get_spent_calories_swimming a d w lp cp hd, pure_eq_ok,
    Training.className, Training.duration, Training.action, Training.LEN_STEP]

/-! The claims. -/

/-- C1: for every workout of any of the three variants, `get_distance`
returns `action * stepLength / 1000` kilometers, with step length 0.65
for Running and SportsWalking and 1.38 for Swimming. -/
theorem claim_C1_distance_formula (a d w h lp cp : ℚ) :
    Training.get_distance (.running a d w) = .ok (a * 0.65 / 1000)
    ∧ Training.get_distance (.sportsWalking a d w h) = .ok (a * 0.65 / 1000)
    ∧ Training.get_distance (.swimming a d w lp cp) = .ok (a * 1.38 / 1000) := by
  refine ⟨?_, ?_, ?_⟩ <;>
    norm_num [get_distance_eq, Training.action, Training.LEN_STEP, LEN_STEP_BASE,
      LEN_STEP_SWM]

/-- C2: with nonzero duration, Running's and SportsWalking's
`get_mean_speed` is `get_distance() / duration`, while Swimming's
override returns `lenght_pool * count_pool / 1000 / duration`,
independent of `action`. -/
theorem claim_C2_mean_speed (a d w h lp cp : ℚ) (hd : d ≠ 0) :
    (∀ s, Training.get_distance (.running a d w) = .ok s →
      Training.get_mean_speed (.running a d w) = .ok (s / d))
    ∧ (∀ s, Training.get_distance (.sportsWalking a d w h) = .ok s →
      Training.get_mean_speed (.sportsWalking a d w h) = .ok (s / d))
    ∧ Training.get_mean_speed (.swimming a d w lp cp) = .ok (lp * cp / 1000 / d)
    ∧ (∀ a2 : ℚ, Training.get_mean_speed (.swimming a2 d w lp cp)
        = Training.get_mean_speed (.swimming a d w lp cp)) := by
  refine ⟨?_, ?_, get_mean_speed_swimming a d w lp cp hd, fun a2 => rfl⟩
  · intro s hs
    rw [get_distance_eq] at hs
    rw [get_mean_speed_running a d w hd, ← Except.ok.inj hs]
    norm_num [Training.action, Training.LEN_STEP]
  · intro s hs
    rw [get_distance_eq] at hs
    rw [get_mean_speed_sportsWalking a d w h hd, ← Except.ok.inj hs]
    norm_num [Training.action, Training.LEN_STEP]

/-- Witness for C2 at Running(15000, 1, 75), whose distance is 9.75 km. -/
theorem claim_C2_witness :
    (1 : ℚ) ≠ 0 ∧ Training.get_mean_speed (.running 15000 1 75) = .ok (9.75 / 1) :=
  ⟨one_ne_zero, (claim_C2_mean_speed 15000 1 75 180 25 40 one_ne_zero).1 9.75 (by
    rw [get_distance_eq]
    norm_num [Training.action, Training.LEN_STEP, LEN_STEP_BASE])⟩

/-- C3: with nonzero duration, Running's `get_spent_calories` is
`(18 * meanSpeed + 1.79) * weight / 1000 * duration * 60` where
`meanSpeed` is the value of `get_mean_speed`. -/
theorem claim_C3_running_calories (a d w : ℚ) (hd : d ≠ 0) :
    ∀ s, Training.get_mean_speed (.running a d w) = .ok s →
      Training.get_spent_calories (.running a d w)
        = .ok ((18 * s + 1.79) * w / 1000 * d * 60) := by
  intro s hs
  rw [get_mean_speed_running a d w hd] at hs
  rw [get_spent_calories_running a d w hd, ← Except.ok.inj hs]
  norm_num [CALORIES_MEAN_SPEED_MULTIPLIER, CALORIES_MEAN_SPEED_SHIFT, H_TO_M]

/-- Witness for C3 at Running(15000, 1, 75), whose mean speed is 9.75. -/
theorem claim_C3_witness :
    (1 : ℚ) ≠ 0 ∧ Training.get_spent_calories (.running 15000 1 75)
      = .ok ((18 * 9.75 + 1.79) * 75 / 1000 * 1 * 60) :=
  ⟨one_ne_zero, claim_C3_running_calories 15000 1 75 one_ne_zero 9.75 (by
    rw [get_mean_speed_running 15000 1 75 one_ne_zero]
    norm_num [LEN_STEP_BASE])⟩

/-- C4: with nonzero duration and height, SportsWalking's
`get_spent_calories` is
`(0.035 * weight + (meanSpeed * 0.278)^2 / (height/100) * 0.029 * weight)
 * (duration * 60)`, and the constant 0.278 is exactly `1000/3600`
rounded to three decimal places. -/
theorem claim_C4_walking_calories (a d w h : ℚ) (hd : d ≠ 0) (hh : h ≠ 0) :
    (∀ s, Training.get_mean_speed (.sportsWalking a d w h) = .ok s →
      Training.get_spent_calories (.sportsWalking a d w h)
        = .ok ((0.035 * w + (s * 0.278) ^ 2 / (h / 100) * 0.029 * w) * (d * 60)))
    ∧ TRN_TO_MS = pyround3 (1000 / 3600)
    ∧ TRN_TO_MS = 0.278 := by
  refine ⟨?_, rfl, TRN_TO_MS_eq⟩
  intro s hs
  rw [get_mean_speed_sportsWalking a d w h hd] at hs
  rw [get_spent_calories_sportsWalking a d w h hd hh, ← Except.ok.inj hs]
  simp only [Except.ok.injEq, CALORIES_WEIGHT_MULTIPLIER, CALORIES_WEIGHT_MULTIPLIER2,
    H_TO_M, TRN_TO_MS_eq]
  ring

/-- Witness for C4 at SportsWalking(9000, 1, 75, 180), whose mean speed
is 5.85. -/
theorem claim_C4_witness :
    (1 : ℚ) ≠ 0 ∧ (180 : ℚ) ≠ 0
    ∧ Training.get_spent_calories (.sportsWalking 9000 1 75 180)
      = .ok ((0.035 * 75 + (5.85 * 0.278) ^ 2 / (180 / 100) * 0.029 * 75) * (1 * 60)) :=
  ⟨one_ne_zero, by norm_num,
    (claim_C4_walking_calories 9000 1 75 180 one_ne_zero (by norm_num)).1 5.85 (by
      rw [get_mean_speed_sportsWalking 9000 1 75 180 one_ne_zero]
      norm_num [LEN_STEP_BASE])⟩

/-- C5: `read_package` fails with the invalid-workout-code error on
every code other than SWM, RUN, WLK, for every data sequence; on each
recognized code it builds the matching variant from the positional
data. -/
theorem claim_C5_dispatch :
    (∀ (code : String) (data : List ℚ),
      code ≠ "SWM" → code ≠ "RUN" → code ≠ "WLK" →
        read_package code data = .error .invalidWorkoutCode)
    ∧ (∀ a d w lp cp : ℚ,
        read_package "SWM" [a, d, w, lp, cp] = .ok (.swimming a d w lp cp))
    ∧ (∀ a d w : ℚ, read_package "RUN" [a, d, w] = .ok (.running a d w))
    ∧ (∀ a d w h : ℚ, read_package "WLK" [a, d, w, h] = .ok (.sportsWalking a d w h)) := by
  refine ⟨?_, fun a d w lp cp => rfl, fun a d w => rfl, fun a d w h => rfl⟩
  intro code data h1 h2 h3
  simp [read_package, h1, h2, h3]

/-- Witness for C5 at the unrecognized code XYZ. -/
theorem claim_C5_witness :
    ("XYZ" ≠ "SWM" ∧ "XYZ" ≠ "RUN" ∧ "XYZ" ≠ "WLK")
    ∧ read_package "XYZ" [1, 1, 1] = .error .invalidWorkoutCode :=
  ⟨⟨by decide, by decide, by decide⟩,
    claim_C5_dispatch.1 "XYZ" [1, 1, 1] (by decide) (by decide) (by decide)⟩

/-- C6: contrary to the claim, `get_message` never returns the
formatted report: on every `InfoMessage` carrying the source's template
the `format(**asdict(self))` call raises `KeyError('self')`, because
the template's replacement fields are spelled `{self.field}` while the
mapping only contains the dataclass field names. -/
theorem claim_C6_get_message_keyerror (t : String) (d di s c : ℚ) :
    InfoMessage.get_message ⟨t, d, di, s, c, MESSAGE_TEMPLATE⟩
      = .error (.keyError "self") := by
  simp only [InfoMessage.get_message, MESSAGE_TEMPLATE, pyFormat]
  rfl

/-- C7 counterexample: at Running(15000, 1, 75) the computed calories
are exactly 797.805, not approximately 798.929 as claimed (the value is
already at three decimals, so rounding does not move it). -/
theorem claim_C7_counterexample :
    Training.get_spent_calories (.running 15000 1 75) = .ok 797.805
    ∧ pyround3 797.805 = 797.805
    ∧ (797.805 : ℚ) ≠ 798.929 := by
  refine ⟨?_, ?_, by norm_num⟩
  · rw [get_spent_calories_running 15000 1 75 one_ne_zero]
    norm_num [CALORIES_MEAN_SPEED_MULTIPLIER, CALORIES_MEAN_SPEED_SHIFT, H_TO_M,
      LEN_STEP_BASE]
  · norm_num [pyround3, roundHalfEven]

/-- C7 as amended: Running(15000, 1, 75) has distance 9.750 km, mean
speed 9.750 km/h, and spent calories exactly 797.805. -/
theorem claim_C7_amended :
    Training.get_distance (.running 15000 1 75) = .ok 9.75
    ∧ Training.get_mean_speed (.running 15000 1 75) = .ok 9.75
    ∧ Training.get_spent_calories (.running 15000 1 75) = .ok 797.805 := by
  refine ⟨?_, ?_, ?_⟩
  · rw [get_distance_eq]
    norm_num [Training.action, Training.LEN_STEP, LEN_STEP_BASE]
  · rw [get_mean_speed_running 15000 1 75 one_ne_zero]
    norm_num [LEN_STEP_BASE]
  · rw [get_spent_calories_running 15000 1 75 one_ne_zero]
    norm_num [CALORIES_MEAN_SPEED_MULTIPLIER, CALORIES_MEAN_SPEED_SHIFT, H_TO_M,
      LEN_STEP_BASE]

/-- C8: Swimming's distance ignores the pool fields (equal for any two
workouts differing only there), some pool change does change the mean
speed, and the mean speed ignores `action`. -/
theorem claim_C8_swimming_independence :
    (∀ a d w lp cp lp2 cp2 : ℚ,
      Training.get_distance (.swimming a d w lp cp)
        = Training.get_distance (.swimming a d w lp2 cp2))
    ∧ Training.get_mean_speed (.swimming 720 1 80 25 40)
        ≠ Training.get_mean_speed (.swimming 720 1 80 50 40)
    ∧ (∀ a a2 d w lp cp : ℚ,
      Training.get_mean_speed (.swimming a d w lp cp)
        = Training.get_mean_speed (.swimming a2 d w lp cp)) := by
  refine ⟨fun a d w lp cp lp2 cp2 => rfl, ?_, fun a a2 d w lp cp => rfl⟩
  rw [get_mean_speed_swimming 720 1 80 25 40 one_ne_zero,
    get_mean_speed_swimming 720 1 80 50 40 one_ne_zero]
  simp only [ne_eq, Except.ok.injEq]
  norm_num

/-- C9: mean speed on zero duration raises the division-by-zero error
in every variant, SportsWalking's calories on zero height do too, and
the error propagates through `show_training_info` unhandled. -/
theorem claim_C9_division_by_zero (a w h lp cp d : ℚ) (hd : d ≠ 0) :
    Training.get_mean_speed (.base a 0 w) = .error .divisionByZero
    ∧ Training.get_mean_speed (.running a 0 w) = .error .divisionByZero
    ∧ Training.get_mean_speed (.sportsWalking a 0 w h) = .error .divisionByZero
    ∧ Training.get_mean_speed (.swimming a 0 w lp cp) = .error .divisionByZero
    ∧ Training.get_spent_calories (.sportsWalking a d w 0) = .error .divisionByZero
    ∧ Training.show_training_info (.running a 0 w) = .error .divisionByZero :=
  ⟨get_mean_speed_base_zero a w, get_mean_speed_running_zero a w,
   get_mean_speed_sportsWalking_zero a w h, get_mean_speed_swimming_zero a w lp cp,
   get_spent_calories_sportsWalking_height_zero a d w hd, by
     simp only [Training.show_training_info, get_distance_eq, ok_bind,
       get_mean_speed_running_zero, error_bind]⟩

/-- Witness for C9 at duration 0 and at height 0. -/
theorem claim_C9_witness :
    (1 : ℚ) ≠ 0
    ∧ Training.get_spent_calories (.sportsWalking 9000 1 75 0) = .error .divisionByZero
    ∧ Training.get_mean_speed (.running 15000 0 75) = .error .divisionByZero :=
  ⟨one_ne_zero, (claim_C9_division_by_zero 9000 75 180 25 40 1 one_ne_zero).2.2.2.2.1,
   (claim_C9_division_by_zero 15000 75 180 25 40 1 one_ne_zero).2.1⟩

/-- C10 counterexample: on the base-class instance Training(1, 0, 1)
the summary fails with the division-by-zero error (raised by
`get_mean_speed` before `get_spent_calories` is reached), not with
`NotImplementedError` as the claim's universal statement requires. -/
theorem claim_C10_counterexample :
    Training.show_training_info (.base 1 0 1) = .error .divisionByZero
    ∧ Err.divisionByZero ≠ Err.notImplementedError := by
  refine ⟨?_, by decide⟩
  simp only [Training.show_training_info, get_distance_eq, ok_bind,
    get_mean_speed_base_zero, error_bind]

/-- C10 as amended: on a base-class instance `get_spent_calories`
always raises `NotImplementedError`; with nonzero duration the summary
fails with that same error; and the three variants (given nonzero
duration, and nonzero height for SportsWalking) do produce a complete
summary. -/
theorem claim_C10_amended (a d w h lp cp : ℚ) (hd : d ≠ 0) (hh : h ≠ 0) :
    Training.get_spent_calories (.base a d w) = .error .notImplementedError
    ∧ Training.show_training_info (.base a d w) = .error .notImplementedError
    ∧ (∃ m, Training.show_training_info (.running a d w) = .ok m)
    ∧ (∃ m, Training.show_training_info (.sportsWalking a d w h) = .ok m)
    ∧ (∃ m, Training.show_training_info (.swimming a d w lp cp) = .ok m) := by
  refine ⟨rfl, ?_, ⟨_, show_training_info_running_ok a d w hd⟩,
    ⟨_, show_training_info_sportsWalking_ok a d w h hd hh⟩,
    ⟨_, show_training_info_swimming_ok a d w lp cp hd⟩⟩
  simp only [Training.show_training_info, get_distance_eq, ok_bind,
    get_mean_speed_base a d w hd, Training.get_spent_calories, error_bind]

/-- Witness for the amended C10 at concrete inputs. -/
theorem claim_C10_witness :
    ((1 : ℚ) ≠ 0
    ∧ Training.show_training_info (.base 1 1 1) = .error .notImplementedError)
    ∧ (∃ m, Training.show_training_info (.running 1 1 1) = .ok m) :=
  ⟨⟨one_ne_zero, (claim_C10_amended 1 1 1 1 1 1 one_ne_zero one_ne_zero).2.1⟩,
   (claim_C10_amended 1 1 1 1 1 1 one_ne_zero one_ne_zero).2.2.1⟩

end ModulTraining
